import Mathlib

/-!
Shallow embedding of `PyMturkGspread/mturk.py` (classes `Survey` and
`GoogleForms`), together with theorems checking the specification claims
about the filtering / reconciliation pipeline.

Conventions used throughout:
  * Python strings are Lean `String`; character-level scanning is done on
    `String.data` (`List Char`) with self-contained total functions so that
    every definition is kernel-computable.
  * A pandas `DataFrame` produced by `Survey.get_mturk_results` is modelled
    as a list of rows; where the index labels matter (the intersection step
    of `filter_mturk_results` works on `DataFrame.index`) a table is a list
    of (label, row) pairs, mirroring that `pd.concat` keeps the per-frame
    `RangeIndex` labels and therefore can produce duplicate labels.
  * Python exceptions are modelled with `Except PyError`.
-/

namespace PyMturkGspread

/-- Python exception kinds relevant to the embedded code paths. -/
inductive PyError where
  | valueError
  | keyError
  | attributeError
  | indexError
deriving DecidableEq, Repr

/-! ## Character-list string utilities (kernel-computable) -/

/-- Does the first list lead (start) the second?  Used for substring search,
modelling the Python `in` operator on strings. -/
def leadsWith : List Char → List Char → Bool
  | [], _ => true
  | _ :: _, [] => false
  | a :: as, b :: bs => a == b && leadsWith as bs

/-- Does `pat` occur somewhere inside `s`?  Models Python `pat in s`. -/
def occursIn (pat : List Char) : List Char → Bool
  | [] => pat.isEmpty
  | c :: rest => leadsWith pat (c :: rest) || occursIn pat rest

/-- Substring test on `String`, models the Python expression `pat in s`. -/
def strIn (pat s : String) : Bool := occursIn pat.data s.data

/-- Auxiliary for splitting on a separator, models Python `str.split(sep)`
which splits on every occurrence.  Structural recursion on a fuel argument
(instantiated with the length of the string, which bounds the number of
consumed characters) keeps the definition kernel-computable; the
fuel-exhaustion branch is unreachable for the fuel used by `pySplit`. -/
def splitGo (sep : List Char) : Nat → List Char → List Char → List (List Char)
  | _, [], acc => [acc.reverse]
  | 0, s, acc => [acc.reverse ++ s]
  | fuel + 1, c :: rest, acc =>
    if leadsWith sep (c :: rest) then
      acc.reverse :: splitGo sep fuel ((c :: rest).drop sep.length) []
    else
      splitGo sep fuel rest (c :: acc)

/-- Python `s.split(sep)` for a non-empty separator (an empty separator is a
Python error; it never occurs here because separators are built as
`" " + op + " "`). -/
def pySplit (sep s : String) : List String :=
  match sep.data with
  | [] => [s]
  | _ :: _ => (splitGo sep.data s.data.length s.data []).map (fun l => String.mk l)

/-- Lexicographic (code-point) comparison on character lists, modelling
Python string `<=` (pandas applies Python comparison element-wise). -/
def lexLe : List Char → List Char → Bool
  | [], _ => true
  | _ :: _, [] => false
  | a :: as, b :: bs => if a == b then lexLe as bs else decide (a < b)

/-- Python string `v <= z`. -/
def strLe (v z : String) : Bool := lexLe v.data z.data

/-! ## ConditionEvaluator: `Survey.add_conditions` and condition application -/

/-- The operator tokens, in the insertion order of `self.cond_mapping`
(a Python 3.7+ dict preserves insertion order). -/
def condOps : List String := ["==", "!=", ">=", "<=", "contains", "does not contain"]

/-- The operators whose token occurs (as a substring) in the condition
string; `add_conditions` accepts a condition when this list is non-empty and
`filter_mturk_results` uses its first element
(`op = [x for x in self.cond_mapping if x in cond][0]`). -/
def matchingOps (cond : String) : List String :=
  condOps.filter (fun op => strIn op cond)

/-- `Survey.add_conditions`: raises `ValueError` when some condition matches
no operator token (`if not any(f in cond for f in self.cond_mapping)`), and
otherwise stores the condition list.  Note the source only checks for ZERO
matches; a condition matching several operator tokens is accepted. -/
def add_conditions (conds : List String) : Except PyError (List String) :=
  if conds.all (fun c => !(matchingOps c).isEmpty) then .ok conds else .error .valueError

/-- Operator evaluation on column value `v` and literal `z`, translating the
lambdas of `self.cond_mapping` row-wise (`x[x[y] == z]` keeps the rows whose
value in column `y` equals `z`, and so on).  `contains` is modelled as
literal substring containment (`pd.Series.str.contains` treats the argument
as a regular expression; the conditions in this development contain no
regex metacharacters). -/
def opEval (op : String) (v z : String) : Bool :=
  if op == "==" then v == z
  else if op == "!=" then v != z
  else if op == ">=" then strLe z v
  else if op == "<=" then strLe v z
  else if op == "contains" then strIn z v
  else if op == "does not contain" then !(strIn z v)
  else false

/-- Parse a condition string the way `filter_mturk_results` does: pick the
first matching operator, then `var = cond.split(" " + op + " ")` and use
`var[0]` and `var[1]`.  Returns `none` where the source would raise
(no operator, or fewer than two split pieces). -/
def parseCond (cond : String) : Option (String × String × String) :=
  match matchingOps cond with
  | [] => none
  | op :: _ =>
    match pySplit (" " ++ op ++ " ") cond with
    | f :: v :: _ => some (f, op, v)
    | _ => none

/-! ## Data model: rows of the aggregated MTurk result table -/

/-- One row of the table built by `Survey.get_mturk_results`: the fixed
key columns `HITID`, `WorkerID`, `AssignmentID` plus one column per
question accumulated by the merge (stored as column-name/value pairs). -/
structure ARow where
  hitId : String
  workerId : String
  assignmentId : String
  answers : List (String × String)
deriving DecidableEq, Repr

/-- Column access `row[field]`.  Returns `none` where pandas would raise a
`KeyError`; the theorems below are stated on tables that contain every
referenced column. -/
def getCol (r : ARow) (f : String) : Option String :=
  if f == "HITID" then some r.hitId
  else if f == "WorkerID" then some r.workerId
  else if f == "AssignmentID" then some r.assignmentId
  else r.answers.lookup f

/-- A labelled table: pandas keeps an index label per row, and `pd.concat`
(used over the per-HIT results in `filter_mturk_results`) keeps each
per-frame `RangeIndex`, so labels in an aggregated table need not be
distinct. -/
abbrev LTable := List (Nat × ARow)

/-- The row predicate applied by one condition string: parse the condition
as `filter_mturk_results` does and evaluate the chosen operator on the
referenced column.  The `none` branches model inputs on which the source
would raise (`IndexError` on a malformed split, `KeyError` on a missing
column); they are not exercised by the theorems below. -/
def condPred (cond : String) (r : ARow) : Bool :=
  match parseCond cond with
  | some (f, op, v) =>
    match getCol r f with
    | some w => opEval op w v
    | none => false
  | none => false

/-- Application of one condition to the aggregated table:
`self.cond_mapping[op](valid_results, var[0], var[1])` filters the rows of
the table by the operator predicate, keeping labels. -/
def applyCond (t : LTable) (cond : String) : LTable :=
  t.filter (fun lr => condPred cond lr.2)

/-- One step of the `recurse` helper inside `filter_mturk_results`:
`z = x[x.index.isin(y.index)]` keeps the rows of `x` whose index LABEL
occurs among the labels of `y`. -/
def interLabel (x y : LTable) : LTable :=
  x.filter (fun lr => y.any (fun s => s.1 == lr.1))

/-- The `recurse` helper of `filter_mturk_results`: repeatedly replace the
first two tables by their label intersection until one remains.  Replacing
the first two elements by `interLabel` of them and recursing is exactly a
left fold of `interLabel` over the list, which is the formulation used
here (it is structurally recursive and hence kernel-computable).  The
source is only ever called with a non-empty list; the `[]` case is
unreachable. -/
def recurse : List LTable → LTable
  | [] => []
  | x :: rest => rest.foldl interLabel x

/-- `Survey.filter_mturk_results`, taking the aggregated table
(`valid_results`, the concatenation of the per-HIT merged results) and the
registered condition list as inputs: with at least one condition, apply
every condition to the whole table and pairwise-intersect the sub-results
by index label; with no conditions, the result is the full table
(`valid_results.copy()`). -/
def filter_mturk_results (t : LTable) (conds : List String) : LTable :=
  if 0 < conds.length then recurse (conds.map (fun c => applyCond t c)) else t

/-- Spec-side comparator for claim C1: filtering the table once by the
logical AND of all conditions. -/
def andFilter (t : LTable) (conds : List String) : LTable :=
  t.filter (fun lr => conds.all (fun c => condPred c lr.2))

/-! ## ResponseAggregator: `Survey.get_mturk_results` -/

/-- One answer object of an assignment: its question id and the response
text (`question_form_answer.qid` and `question_form_answer.fields[0]`). -/
structure QAnswer where
  qid : String
  field : String
deriving DecidableEq, Repr

/-- One assignment fetched from MTurk.  The source reads
`assignment.answers[0]` (the first and only answer sheet); `answers` here
models that sheet directly. -/
structure Assignment where
  workerId : String
  assignmentId : String
  answers : List QAnswer
deriving DecidableEq, Repr

/-- The `helper` closure of `get_mturk_results`: for each fetched
assignment, emit one row per answer object whose `qid` equals the requested
question (the source loop appends a row for every matching answer). -/
def helper (hitId question : String) (assignments : List Assignment) : List ARow :=
  assignments.flatMap (fun a =>
    (a.answers.filter (fun qa => qa.qid == question)).map (fun qa =>
      ⟨hitId, a.workerId, a.assignmentId, [(question, qa.field)]⟩))

/-- The key triple of a row: the values of the `HITID`, `WorkerID`,
`AssignmentID` columns. -/
def keyOf (r : ARow) : String × String × String := (r.hitId, r.workerId, r.assignmentId)

/-- `pd.merge(t1, t2, on the HITID, WorkerID, AssignmentID columns)` over helper
tables: inner join on equality of the key triple; a joined row carries the
key columns of the left row and the concatenation of both answer column
lists. -/
def mergeTables (t1 t2 : List ARow) : List ARow :=
  t1.flatMap (fun r1 =>
    (t2.filter (fun r2 => keyOf r2 == keyOf r1)).map (fun r2 =>
      { r1 with answers := r1.answers ++ r2.answers }))

/-- `Survey.get_mturk_results` for one HIT: fetch the per-question tables
and left-fold `pd.merge` over them.  The source raises an `IndexError`
on an empty question list (`allPandas[0]`); that case is not modelled and
the theorems below use non-empty question lists. -/
def get_mturk_results (hitId : String) (questionList : List String)
    (assignments : List Assignment) : List ARow :=
  match questionList.map (fun q => helper hitId q assignments) with
  | [] => []
  | t :: ts => ts.foldl mergeTables t

/-- Number of rows of a table carrying a given key triple. -/
def countKey (t : List ARow) (k : String × String × String) : Nat :=
  t.countP (fun r => keyOf r == k)

/-! ## Column-aware merge model for the `try/except ValueError` of
`get_mturk_results` (claim C4) -/

/-- A generic dataframe for the merge-failure analysis: explicit column
names plus rows of values aligned with the columns. -/
structure CTable where
  cols : List String
  rows : List (List String)
deriving DecidableEq, Repr

/-- The merge key used by `get_mturk_results`. -/
def mergeKeys : List String := ["HITID", "WorkerID", "AssignmentID"]

/-- Value of row `r` (laid out as `cols`) in column `c`; `""` where the
column is absent (never the case in the theorems below). -/
def valAt (cols : List String) (r : List String) (c : String) : String :=
  match cols.findIdx? (fun x => x == c) with
  | some i => r.getD i ""
  | none => ""

/-- Inner join of two column-aware tables on the given key columns
(both tables contain the keys when this is called). -/
def joinC (keys : List String) (t1 t2 : CTable) : CTable :=
  { cols := t1.cols ++ t2.cols.filter (fun c => !keys.contains c)
    rows := t1.rows.flatMap (fun r1 =>
      (t2.rows.filter (fun r2 =>
          keys.all (fun k => valAt t1.cols r1 k == valAt t2.cols r2 k))).map (fun r2 =>
        r1 ++ ((t2.cols.zip r2).filter (fun p => !keys.contains p.1)).map (fun p => p.2))) }

/-- Does a table contain every merge key column? -/
def keysOk (t : CTable) : Bool := mergeKeys.all (fun k => t.cols.contains k)

/-- `pd.merge(t1, t2, on=mergeKeys)`: pandas raises a `KeyError` when a key
column is absent from either operand; otherwise it returns the inner
join. -/
def pdMerge (t1 t2 : CTable) : Except PyError CTable :=
  if keysOk t1 && keysOk t2 then .ok (joinC mergeKeys t1 t2) else .error .keyError

/-- The merge loop `for panda in allPandas[1:]: mergedPanda = pd.merge(...)`,
stopping at the first raised error. -/
def mergeFold (t : CTable) : List CTable → Except PyError CTable
  | [] => .ok t
  | s :: rest =>
    match pdMerge t s with
    | .ok m => mergeFold m rest
    | .error e => .error e

/-- The tail of `get_mturk_results` on the per-question tables: the
`try/except ValueError` block.  A `ValueError` is caught (the source prints
`There are no values!` and returns `None`, modelled as `.ok none`); every
other exception propagates.  An empty table list raises `IndexError`
(`allPandas[0]`). -/
def get_mturk_results_tables (tables : List CTable) : Except PyError (Option CTable) :=
  match tables with
  | [] => .error .indexError
  | t :: ts =>
    match mergeFold t ts with
    | .ok m => .ok (some m)
    | .error .valueError => .ok none
    | .error e => .error e

/-! ## CompletionReconciler: `GoogleForms.get_results` -/

/-- `self.completeActual = list(set([user for user in self.filteredUsers if
user in self.completeList]))`: the qualified respondents that occur
(exact string match) in the completion column, deduplicated.  Python
`set` iteration order is unspecified; the duplicate-free list produced by
`List.dedup` models the resulting set. -/
def completeActual (filteredUsers completeList : List String) : List String :=
  (filteredUsers.filter (fun u => completeList.contains u)).dedup

/-- `self.remaining = [user for user in self.filteredUsers if user not in
self.completeActual]`: kept as a list comprehension over `filteredUsers`,
with no deduplication. -/
def remaining (filteredUsers completeList : List String) : List String :=
  filteredUsers.filter (fun u => !(completeActual filteredUsers completeList).contains u)

/-! ## NotificationDispatcher: `Survey.send_reminder_emails` -/

/-- One entry of the result list built by `send_reminder_emails`: on
success the source appends `[user, notify]` (the worker id and the API
acknowledgement); on an exception it appends the string
`"Could not email user: %s" % user`. -/
inductive MailResult where
  | sent (user : String) (ack : String)
  | failed (msg : String)
deriving DecidableEq, Repr

/-- `Survey.send_reminder_emails`: one notification attempt per entry of
`users`, in order.  The external call `self.mturk.notify_workers(user,
subj, msg + user)` is an oracle parameter returning `some ack` on success
and `none` where the call raises; a raised exception is caught and recorded
as a failure entry, and the loop continues. -/
def send_reminder_emails (notify : String → String → String → Option String)
    (users : List String) (subj msg : String) : List MailResult :=
  users.map (fun user =>
    match notify user subj (msg ++ user) with
    | some ack => .sent user ack
    | none => .failed ("Could not email user: " ++ user))

/-- Number of failure entries in a mail result list. -/
def countFailed (rs : List MailResult) : Nat :=
  rs.countP (fun r => match r with | .failed _ => true | _ => false)

/-- Number of success entries in a mail result list. -/
def countSent (rs : List MailResult) : Nat :=
  rs.countP (fun r => match r with | .sent _ _ => true | _ => false)

/-! ## BonusDisburser: `Survey.award_bonus` -/

/-- Observable outcome of `award_bonus`: the `grant_bonus` calls issued
(worker id, assignment id, amount), and the total-budget figure printed at
the end of a debug run (`None` in live mode, where no budget is
reported). -/
structure BonusOutcome where
  payments : List (String × String × ℚ)
  budgetReport : Option ℚ
deriving DecidableEq, Repr

/-- The per-HIT worker dictionary of `award_bonus`:
`currentPanda = filtered[HITID == hit and WorkerID isin workerList]`, then
`currentPanda.set_index("WorkerID").to_dict(orient="index")`.  Setting the
index collapses duplicate worker ids: the dictionary has one entry per
distinct worker id of `currentPanda`, holding the LAST matching row (later
rows overwrite earlier ones). -/
def hitEntries (filtered : List ARow) (workerList : List String)
    (hit : String) : List (String × Option ARow) :=
  let current := filtered.filter (fun r =>
    r.hitId == hit && workerList.contains r.workerId)
  ((current.map (fun r => r.workerId)).dedup).map (fun w =>
    (w, (current.filter (fun r => r.workerId == w)).getLast?))

/-- `Survey.award_bonus` after its recomputation calls, on the filtered
table, the HIT list, the target worker list (`customList` or
`self.completeActual`), the dollar amount (exact rational arithmetic;
the source uses Python floats) and the `debug` flag.  For every HIT and
every dictionary entry the budget is increased by `amount`; with
`debug=True` nothing is paid and the budget times 1.2 is reported, else
one `grant_bonus` call is issued per entry, keyed by the entry row
`AssignmentID`, and no budget is reported. -/
def award_bonus (filtered : List ARow) (hits workerList : List String)
    (amount : ℚ) (debug : Bool) : BonusOutcome :=
  let entries := (hits.map (hitEntries filtered workerList)).flatten
  let budget : ℚ := entries.foldl (fun b _ => b + amount) 0
  if debug then
    { payments := [], budgetReport := some (budget * 1.2) }
  else
    { payments := entries.filterMap (fun e =>
        e.2.map (fun r => (e.1, r.assignmentId, amount)))
      budgetReport := none }

/-- Spec-side counting definition for claim C6: the qualifying
respondent-task pairs, i.e. for every HIT the distinct qualifying workers
appearing under it in the filtered table. -/
def qualifyingPairs (filtered : List ARow) (hits workerList : List String) :
    List (String × String) :=
  hits.flatMap (fun hit =>
    (((filtered.filter (fun r =>
        r.hitId == hit && workerList.contains r.workerId)).map
          (fun r => r.workerId)).dedup).map (fun w => (hit, w)))

/-! ## Attribute state of a `Survey` object (claim C10)

`Survey.__init__` stores only the connection and the static configuration;
`self.cond_mapping` and `self.conditions` are first assigned inside
`add_conditions`, `self.filtered_mturk_resp` / `self.allUsers` /
`self.filteredUsers` inside `filter_mturk_results`, and
`self.completeActual` / `self.remaining` inside `GoogleForms.get_results`.
Reading an attribute that was never assigned raises `AttributeError`,
modelled by `Option`-valued fields read through `readAttr`. -/

structure SurveyState where
  conditions : Option (List String)
  filteredResp : Option LTable
  allUsersAttr : Option (List String)
  filteredUsersAttr : Option (List String)
  completeActualAttr : Option (List String)
  remainingAttr : Option (List String)
deriving Repr

/-- The attribute state right after `Survey.__init__` (the constructor sets
none of the pipeline attributes). -/
def freshSurvey : SurveyState :=
  { conditions := none, filteredResp := none, allUsersAttr := none,
    filteredUsersAttr := none, completeActualAttr := none, remainingAttr := none }

/-- Reading a possibly-unset Python instance attribute. -/
def readAttr {α : Type} (x : Option α) : Except PyError α :=
  match x with
  | some v => .ok v
  | none => .error .attributeError

/-- `Survey.add_conditions` as a state transition: on success both
`self.cond_mapping` and `self.conditions` become set (they are only ever
assigned together, so a single optional field models both). -/
def add_conditions_op (conds : List String) (s : SurveyState) :
    Except PyError SurveyState :=
  match add_conditions conds with
  | .ok cs => .ok { s with conditions := some cs }
  | .error e => .error e

/-- `Survey.filter_mturk_results` as a state transition.  The aggregated
table `t` (the concatenation of per-HIT `get_mturk_results` outputs, an
external fetch) is a parameter.  The source first builds `valid_results`,
then reads `self.conditions` (and `self.cond_mapping`), which raises
`AttributeError` when `add_conditions` was never called. -/
def filter_op (t : LTable) (s : SurveyState) : Except PyError SurveyState :=
  match s.conditions with
  | none => .error .attributeError
  | some conds =>
    let filtered := filter_mturk_results t conds
    .ok { s with
          filteredResp := some filtered,
          allUsersAttr := some (t.map (fun lr => lr.2.workerId)),
          filteredUsersAttr := some (filtered.map (fun lr => lr.2.workerId)) }

/-- `GoogleForms.get_results` as a state transition; the completion column
of the spreadsheet (`df[self.srvy_q_text]`) is the external parameter. -/
def get_results_op (completeList : List String) (s : SurveyState) :
    Except PyError SurveyState := do
  let fu ← readAttr s.filteredUsersAttr
  .ok { s with
        completeActualAttr := some (completeActual fu completeList),
        remainingAttr := some (remaining fu completeList) }

/-- `Survey.return_all_users`. -/
def return_all_users_op (t : LTable) (s : SurveyState) :
    Except PyError (List String) := do
  let s1 ← filter_op t s
  readAttr s1.allUsersAttr

/-- `Survey.return_filtered_users`. -/
def return_filtered_users_op (t : LTable) (s : SurveyState) :
    Except PyError (List String) := do
  let s1 ← filter_op t s
  readAttr s1.filteredUsersAttr

/-- `Survey.send_first_mailer`: reads `self.filteredUsers` directly (set
only by `filter_mturk_results`, which itself needs `add_conditions`). -/
def send_first_mailer_op (notify : String → String → String → Option String)
    (subj msg : String) (s : SurveyState) : Except PyError (List MailResult) := do
  let fu ← readAttr s.filteredUsersAttr
  .ok (send_reminder_emails notify fu subj msg)

/-- `Survey.award_bonus`: recomputes the filtered table and the
reconciliation, then disburses. -/
def award_bonus_op (t : LTable) (completeList : List String)
    (hits : List String) (amount : ℚ) (debug : Bool)
    (customList : Option (List String)) (s : SurveyState) :
    Except PyError BonusOutcome := do
  let s1 ← filter_op t s
  let s2 ← get_results_op completeList s1
  let workerList ← match customList with
    | some l => pure l
    | none => readAttr s2.completeActualAttr
  let filtered ← readAttr s2.filteredResp
  .ok (award_bonus (filtered.map (fun lr => lr.2)) hits workerList amount debug)

/-- `Survey.merge`: recomputes, then joins the filtered MTurk rows with the
spreadsheet rows on `WorkerID = ` the completion-code column.  A
spreadsheet row is a pair of its completion-code cell and its remaining
cells. -/
def merge_op (t : LTable) (sheetRows : List (String × List (String × String)))
    (s : SurveyState) : Except PyError (List (ARow × List (String × String))) := do
  let s1 ← filter_op t s
  let s2 ← get_results_op (sheetRows.map (fun g => g.1)) s1
  let filtered ← readAttr s2.filteredResp
  .ok (filtered.flatMap (fun lr =>
    (sheetRows.filter (fun g => g.1 == lr.2.workerId)).map (fun g => (lr.2, g.2))))

/-- `Survey.return_completed`. -/
def return_completed_op (t : LTable) (completeList : List String)
    (s : SurveyState) : Except PyError (List String) := do
  let s1 ← filter_op t s
  let s2 ← get_results_op completeList s1
  readAttr s2.completeActualAttr

/-- `Survey.return_remaining`. -/
def return_remaining_op (t : LTable) (completeList : List String)
    (s : SurveyState) : Except PyError (List String) := do
  let s1 ← filter_op t s
  let s2 ← get_results_op completeList s1
  readAttr s2.remainingAttr

/-! ## Concrete example inputs used by witnesses and counterexamples -/

/-- A screener row from HIT `H1` answering `Q1 = yes`, `Q2 = no`. -/
def rowA : ARow := ⟨"H1", "W1", "A1", [("Q1", "yes"), ("Q2", "no")]⟩

/-- A screener row from HIT `H2` answering `Q1 = no`, `Q2 = yes`. -/
def rowB : ARow := ⟨"H2", "W2", "A2", [("Q1", "no"), ("Q2", "yes")]⟩

/-- An aggregated table as produced by `pd.concat` over two single-row
per-HIT results: both rows keep their per-frame `RangeIndex` label 0, so
the labels collide. -/
def tDup : LTable := [(0, rowA), (0, rowB)]

/-- The same two rows with distinct index labels (as in a single-HIT
aggregation). -/
def tGood : LTable := [(0, rowA), (1, rowB)]

/-- Two conditions referencing the two question columns. -/
def condsYY : List String := ["Q1 == yes", "Q2 == yes"]

/-- Scenario assignment (claim C5): respondent `R1` answered both
questions. -/
def asgnR1 : Assignment := ⟨"R1", "A1", [⟨"Q1", "yes"⟩, ⟨"Q2", "5"⟩]⟩

/-- Scenario assignment (claim C5): respondent `R2` answered only `Q1`. -/
def asgnR2 : Assignment := ⟨"R2", "A2", [⟨"Q1", "no"⟩]⟩

/-- A per-question table carrying the merge key columns. -/
def tKeyed : CTable :=
  ⟨["HITID", "WorkerID", "AssignmentID", "Q1"], [["H1", "W1", "A1", "yes"]]⟩

/-- A fetched table from which the merge key columns are absent. -/
def tNoKey : CTable := ⟨["Q2"], [["5"]]⟩

/-- A filtered table with three qualifying workers under one HIT
(claim C6 scenario). -/
def bonus3 : List ARow :=
  [⟨"T1", "W1", "A1", []⟩, ⟨"T1", "W2", "A2", []⟩, ⟨"T1", "W3", "A3", []⟩]

end PyMturkGspread

namespace PyMturkGspread

/-! # Theorems -/

/-! ## Core lemmas about the label-intersection filter (claims C1 and C7) -/

/-- On a table with pairwise-distinct index labels, intersecting two
filtered copies of the table by label membership is the conjunction of the
two filters. -/
theorem interLabel_filter (t : LTable) (p q : Nat × ARow → Bool)
    (hn : (t.map Prod.fst).Nodup) :
    interLabel (t.filter p) (t.filter q) = t.filter (fun x => p x && q x) := by
  unfold interLabel
  rw [List.filter_filter]
  refine List.filter_congr ?_
  intro x hx
  have hany : ((t.filter q).any (fun s => s.1 == x.1)) = q x := by
    cases hq : q x
    · refine Bool.eq_false_iff.mpr ?_
      intro hcontra
      obtain ⟨s, hs, hb⟩ := List.any_eq_true.mp hcontra
      obtain ⟨hst, hsq⟩ := List.mem_filter.mp hs
      have hsx : s = x := List.inj_on_of_nodup_map hn hst hx (eq_of_beq hb)
      rw [hsx, hq] at hsq
      exact Bool.false_ne_true hsq
    · refine List.any_eq_true.mpr ?_
      exact ⟨x, List.mem_filter.mpr ⟨hx, hq⟩, by simp⟩
  rw [hany, Bool.and_comm]

/-- Folding the label intersection over per-condition filtered copies of a
distinct-label table starting from a filtered copy conjoins all the
predicates. -/
theorem foldl_interLabel_filter (t : LTable) (hn : (t.map Prod.fst).Nodup) :
    ∀ (cs : List String) (P : Nat × ARow → Bool),
      (cs.map (fun c => applyCond t c)).foldl interLabel (t.filter P)
        = t.filter (fun x => P x && cs.all (fun c => condPred c x.2)) := by
  intro cs
  induction cs with
  | nil =>
    intro P
    simp
  | cons c cs ih =>
    intro P
    simp only [List.map_cons, List.foldl_cons]
    rw [show applyCond t c = t.filter (fun lr => condPred c lr.2) from rfl]
    rw [interLabel_filter t P _ hn]
    rw [ih (fun x => P x && condPred c x.2)]
    refine List.filter_congr ?_
    intro x hx
    simp [Bool.and_assoc]

/-- On a distinct-label table, `filter_mturk_results` computes exactly the
AND filter (also for the empty condition list, where both are the full
table). -/
theorem filter_eq_andFilter (t : LTable) (conds : List String)
    (hn : (t.map Prod.fst).Nodup) :
    filter_mturk_results t conds = andFilter t conds := by
  unfold filter_mturk_results andFilter
  cases conds with
  | nil => simp
  | cons c cs =>
    simp only [List.length_cons, Nat.zero_lt_succ, if_pos, List.map_cons]
    show (cs.map (fun c => applyCond t c)).foldl interLabel (applyCond t c) = _
    rw [show applyCond t c = t.filter (fun lr => condPred c lr.2) from rfl]
    rw [foldl_interLabel_filter t hn cs _]
    refine List.filter_congr ?_
    intro x hx
    simp

/-! ## Claim C1 -/

/-- Claim C1, corrected: the claimed equivalence between the pairwise
label-membership reduction and the one-shot AND filter fails on aggregated
tables with duplicate index labels (which `pd.concat` over several HITs
produces).  `tDup` holds two rows that both carry label 0; each condition
of `condsYY` is satisfied by exactly one of them, so the AND filter is
empty while the label intersection keeps the first row. -/
theorem C1_counterexample :
    filter_mturk_results tDup condsYY ≠ andFilter tDup condsYY := by decide

/-- Claim C1 (amended): on an aggregated table whose index labels are
pairwise distinct, the result of pairwise-reducing the per-condition
filtered sub-results by index membership equals filtering the table by the
logical AND of all conditions at once; and for the empty condition list
the result is the full table unfiltered. -/
theorem C1_intersection_equals_and (t : LTable) (conds : List String)
    (hn : (t.map Prod.fst).Nodup) :
    filter_mturk_results t conds = andFilter t conds
      ∧ filter_mturk_results t [] = t :=
  ⟨filter_eq_andFilter t conds hn, rfl⟩

/-- Witness for C1 on the distinct-label table `tGood`. -/
theorem C1_intersection_equals_and_witness :
    filter_mturk_results tGood condsYY = andFilter tGood condsYY
      ∧ filter_mturk_results tGood [] = tGood :=
  C1_intersection_equals_and tGood condsYY (by decide)

/-! ## Claim C7 -/

/-- Claim C7, corrected: filtering twice is NOT always the same as
filtering once.  On the duplicate-label table `tDup` the first pass keeps
row `rowA` (by label confusion); on the second pass the per-condition
results share no label, so the result becomes empty. -/
theorem C7_counterexample :
    filter_mturk_results (filter_mturk_results tDup condsYY) condsYY
      ≠ filter_mturk_results tDup condsYY := by decide

/-- Claim C7 (amended): on an aggregated table whose index labels are
pairwise distinct, filtering by a condition list and filtering the result
again by the same list yields the same table as filtering once; in
particular rerunning the pipeline on unchanged data and conditions yields
identical results. -/
theorem C7_filter_idempotent (t : LTable) (conds : List String)
    (hn : (t.map Prod.fst).Nodup) :
    filter_mturk_results (filter_mturk_results t conds) conds
      = filter_mturk_results t conds := by
  have h1 := filter_eq_andFilter t conds hn
  have hsub : ((andFilter t conds).map Prod.fst).Nodup := by
    have hs : List.Sublist ((andFilter t conds).map Prod.fst) (t.map Prod.fst) :=
      (List.filter_sublist t).map Prod.fst
    exact hn.sublist hs
  rw [h1, filter_eq_andFilter _ conds hsub]
  unfold andFilter
  rw [List.filter_filter]
  refine List.filter_congr ?_
  intro x hx
  simp

/-- Witness for C7 on the distinct-label table `tGood`. -/
theorem C7_filter_idempotent_witness :
    filter_mturk_results (filter_mturk_results tGood condsYY) condsYY
      = filter_mturk_results tGood condsYY :=
  C7_filter_idempotent tGood condsYY (by decide)

/-! ## Claim C3 -/

/-- Claim C3, corrected: a condition in which SEVERAL operator tokens match
is accepted by `add_conditions`, not rejected.  The string
`"a == b != c"` matches both `==` and `!=` yet registration succeeds,
because the source only raises when no token matches at all. -/
theorem C3_counterexample :
    (matchingOps "a == b != c").length = 2
      ∧ add_conditions ["a == b != c"] = .ok ["a == b != c"] :=
  ⟨rfl, rfl⟩

/-- Claim C3 (amended): `add_conditions` accepts a condition list iff AT
LEAST one operator token from the fixed set occurs in every condition;
a condition with zero matching tokens raises the parse error, while a
condition with multiple matching tokens is accepted (filtering later uses
the first match in the fixed order). -/
theorem C3_accepts_iff_some_op (conds : List String) :
    add_conditions conds = .ok conds
      ↔ ∀ c ∈ conds, matchingOps c ≠ [] := by
  unfold add_conditions
  constructor
  · intro h c hc
    by_cases hall : conds.all (fun c => !(matchingOps c).isEmpty)
    · have := List.all_eq_true.mp hall c hc
      simpa [List.isEmpty_iff] using this
    · rw [if_neg hall] at h
      exact absurd h (by simp)
  · intro h
    rw [if_pos]
    refine List.all_eq_true.mpr ?_
    intro c hc
    simpa [List.isEmpty_iff] using h c hc

/-- Witness for C3: the registered condition list `condsYY` (each condition
matching exactly the `==` operator) is accepted. -/
theorem C3_accepts_iff_some_op_witness :
    add_conditions condsYY = .ok condsYY :=
  (C3_accepts_iff_some_op condsYY).mpr (by decide)

/-! ## Claim C2 -/

/-- Claim C2, confirmed: the completed pool is exactly the set of qualified
respondents that occur (case-sensitive exact match) in the completion
list, it is duplicate-free, and completion-list entries outside the
qualified set never appear; on the spec scenario
(qualified `["R1"]`, completion list `["R1","R3"]`) it is `["R1"]`. -/
theorem C2_completed_is_intersection (filteredUsers completeList : List String) :
    (∀ u, u ∈ completeActual filteredUsers completeList
        ↔ u ∈ filteredUsers ∧ u ∈ completeList)
      ∧ (completeActual filteredUsers completeList).Nodup
      ∧ completeActual ["R1"] ["R1", "R3"] = ["R1"] := by
  refine ⟨?_, List.nodup_dedup _, by decide⟩
  intro u
  unfold completeActual
  rw [List.mem_dedup, List.mem_filter]
  simp

/-- Witness for C2 at the scenario input. -/
theorem C2_completed_is_intersection_witness :
    "R1" ∈ completeActual ["R1"] ["R1", "R3"] :=
  ((C2_completed_is_intersection ["R1"] ["R1", "R3"]).1 "R1").mpr
    ⟨by decide, by decide⟩

/-! ## Claim C9 -/

/-- Claim C9, corrected: `remaining` is NOT duplicate-free.  It is a plain
list comprehension over `filteredUsers`, which keeps duplicates: with the
qualified list `["R1", "R1"]` and an empty completion list, `remaining`
is `["R1", "R1"]`. -/
theorem C9_counterexample : ¬ (remaining ["R1", "R1"] []).Nodup := by decide

/-- Claim C9 (amended): the members of `remaining` are exactly the
qualified respondents not in the completed pool (set difference on
membership), and `remaining` is disjoint from `completed`; however
`remaining` is a list that preserves duplicates of the qualified list
rather than a deduplicated set. -/
theorem C9_remaining_is_difference (filteredUsers completeList : List String) :
    (∀ u, u ∈ remaining filteredUsers completeList
        ↔ u ∈ filteredUsers
            ∧ u ∉ completeActual filteredUsers completeList)
      ∧ ∀ u ∈ remaining filteredUsers completeList,
          u ∉ completeActual filteredUsers completeList := by
  have hmem : ∀ u, u ∈ remaining filteredUsers completeList
      ↔ u ∈ filteredUsers ∧ u ∉ completeActual filteredUsers completeList := by
    intro u
    unfold remaining
    rw [List.mem_filter]
    simp
  exact ⟨hmem, fun u hu => ((hmem u).mp hu).2⟩

/-- Witness for C9: `R2` qualified but did not complete, so it is in
`remaining` and, by the theorem, not in `completed`. -/
theorem C9_remaining_is_difference_witness :
    "R2" ∉ completeActual ["R1", "R2"] ["R1"] :=
  (C9_remaining_is_difference ["R1", "R2"] ["R1"]).2 "R2" (by decide)

/-! ## Claim C4 -/

/-- The merge loop raises `KeyError` when the running table lacks a merge
key (and at least one merge remains), or when any table in the remaining
list lacks one. -/
theorem mergeFold_keyError (l : List CTable) :
    ∀ m : CTable,
      ((keysOk m = false ∧ l ≠ []) ∨ ∃ s ∈ l, keysOk s = false) →
        mergeFold m l = .error .keyError := by
  induction l with
  | nil =>
    intro m h
    rcases h with ⟨_, hne⟩ | ⟨s, hs, _⟩
    · exact absurd rfl hne
    · exact absurd hs (List.not_mem_nil s)
  | cons s rest ih =>
    intro m h
    by_cases hm : keysOk m = true
    · by_cases hsOk : keysOk s = true
      · have hstep : mergeFold m (s :: rest) = mergeFold (joinC mergeKeys m s) rest := by
          simp [mergeFold, pdMerge, hm, hsOk]
        rw [hstep]
        apply ih
        rcases h with ⟨hmf, _⟩ | ⟨s', hs', hbad⟩
        · rw [hm] at hmf
          exact absurd hmf (by simp)
        · rcases List.mem_cons.mp hs' with rfl | hmem
          · rw [hsOk] at hbad
            exact absurd hbad (by simp)
          · exact Or.inr ⟨s', hmem, hbad⟩
      · have hsF : keysOk s = false := by
          cases hv : keysOk s
          · rfl
          · exact absurd hv hsOk
        simp [mergeFold, pdMerge, hm, hsF]
    · have hmF : keysOk m = false := by
        cases hv : keysOk m
        · rfl
        · exact absurd hv hm
      simp [mergeFold, pdMerge, hmF]

/-- Claim C4, corrected: when a merge key column is absent from a fetched
per-question table, the aggregator RAISES.  `pd.merge` raises `KeyError`
for a missing key column, and the source only catches `ValueError`, so
nothing here reports "no results" or yields an empty table.  (Tables built
by `helper` always carry the key columns, so this path needs a malformed
table such as `tNoKey`; and even the caught `ValueError` path returns
`None`, not an empty table.) -/
theorem C4_counterexample :
    get_mturk_results_tables [tNoKey, tKeyed] = .error .keyError
      ∧ get_mturk_results_tables [tNoKey, tKeyed]
          ≠ (.ok none : Except PyError (Option CTable)) := by
  refine ⟨rfl, ?_⟩
  intro h
  rw [show get_mturk_results_tables [tNoKey, tKeyed] = .error .keyError from rfl] at h
  exact Except.noConfusion h

/-- Claim C4 (amended): when the merge key is absent from any of the
per-question tables and at least one merge step runs, `get_mturk_results`
propagates a `KeyError` instead of reporting "no results" with an empty
table; only a `ValueError` in the merge loop is caught (and that path
returns `None`, not an empty table). -/
theorem C4_missing_key_raises (t : CTable) (ts : List CTable)
    (hne : ts ≠ [])
    (hbad : ∃ s ∈ t :: ts, keysOk s = false) :
    get_mturk_results_tables (t :: ts) = .error .keyError := by
  have hfold : mergeFold t ts = .error .keyError := by
    apply mergeFold_keyError
    rcases hbad with ⟨s, hs, hbadS⟩
    rcases List.mem_cons.mp hs with rfl | hmem
    · exact Or.inl ⟨hbadS, hne⟩
    · exact Or.inr ⟨s, hmem, hbadS⟩
  simp [get_mturk_results_tables, hfold]

/-- Witness for C4 at a concrete input: key-bearing table first, keyless
table second. -/
theorem C4_missing_key_raises_witness :
    get_mturk_results_tables [tKeyed, tNoKey] = .error .keyError :=
  C4_missing_key_raises tKeyed [tNoKey] (by simp)
    ⟨tNoKey, by simp, by decide⟩

/-! ## Claim C5 -/

/-- Counting over a flat map is the sum of the per-element counts. -/
theorem countP_flatMap {α β : Type} (p : β → Bool) (f : α → List β) :
    ∀ l : List α, (l.flatMap f).countP p = (l.map (fun a => (f a).countP p)).sum := by
  intro l
  induction l with
  | nil => rfl
  | cons a l ih => simp [List.flatMap_cons, ih]

/-- The key multiplicity of an inner join is the product of the key
multiplicities of its operands. -/
theorem countKey_mergeTables (t1 t2 : List ARow) (k : String × String × String) :
    countKey (mergeTables t1 t2) k = countKey t1 k * countKey t2 k := by
  induction t1 with
  | nil => simp [mergeTables, countKey]
  | cons r1 t1 ih =>
    show countKey ((t2.filter (fun r2 => keyOf r2 == keyOf r1)).map
        (fun r2 => { r1 with answers := r1.answers ++ r2.answers })
          ++ mergeTables t1 t2) k = _
    unfold countKey at *
    rw [List.countP_append, ih, List.countP_cons, List.countP_map]
    have hcomp : ((fun r => keyOf r == k) ∘
        (fun r2 : ARow => { r1 with answers := r1.answers ++ r2.answers }))
          = fun _ : ARow => keyOf r1 == k := rfl
    rw [hcomp]
    cases hk : (keyOf r1 == k) with
    | true =>
      have hkk : keyOf r1 = k := eq_of_beq hk
      subst hkk
      simp only [hk, List.countP_true, if_pos, ← List.countP_eq_length_filter]
      ring
    | false =>
      simp only [hk, List.countP_false, Function.const, if_neg, Bool.false_eq_true,
        not_false_iff]
      ring

/-- The key multiplicity of the merge fold is the product over all
tables. -/
theorem countKey_foldl_merge (ts : List (List ARow)) :
    ∀ (m : List ARow) (k : String × String × String),
      countKey (ts.foldl mergeTables m) k
        = countKey m k * (ts.map (fun t => countKey t k)).prod := by
  induction ts with
  | nil =>
    intro m k
    simp
  | cons t ts ih =>
    intro m k
    simp only [List.foldl_cons, List.map_cons, List.prod_cons]
    rw [ih, countKey_mergeTables]
    ring

/-- An assignment key that answers a question nowhere contributes no row to
the helper table of that question. -/
theorem countKey_helper_zero (hitId q : String) (assignments : List Assignment)
    (w aid : String)
    (h : ∀ a ∈ assignments, a.workerId = w → a.assignmentId = aid →
        a.answers.filter (fun qa => qa.qid == q) = []) :
    countKey (helper hitId q assignments) (hitId, w, aid) = 0 := by
  unfold helper countKey
  rw [countP_flatMap]
  apply List.sum_eq_zero
  intro x hx
  obtain ⟨a, ha, rfl⟩ := List.mem_map.mp hx
  rw [List.countP_map]
  by_cases hw : a.workerId = w ∧ a.assignmentId = aid
  · rw [h a ha hw.1 hw.2]
    rfl
  · apply List.countP_eq_zero.mpr
    intro qa _
    simp only [Function.comp_apply, keyOf, beq_iff_eq, Prod.mk.injEq]
    intro hcontra
    exact hw ⟨hcontra.2.1, hcontra.2.2⟩

/-- Claim C5, confirmed: a respondent-submission lacking an answer to any
requested question has no row in the merged table (inner-join semantics);
on the scenario (R1 answers Q1 and Q2, R2 answers only Q1, aggregation
over [Q1, Q2]) there is exactly one row for R1 and none for R2. -/
theorem C5_inner_join_drop :
    (∀ (hit : String) (qs : List String) (assignments : List Assignment)
        (w aid q : String), q ∈ qs →
        (∀ a ∈ assignments, a.workerId = w → a.assignmentId = aid →
            a.answers.filter (fun qa => qa.qid == q) = []) →
        countKey (get_mturk_results hit qs assignments) (hit, w, aid) = 0)
      ∧ countKey (get_mturk_results "T1" ["Q1", "Q2"] [asgnR1, asgnR2])
          ("T1", "R1", "A1") = 1
      ∧ countKey (get_mturk_results "T1" ["Q1", "Q2"] [asgnR1, asgnR2])
          ("T1", "R2", "A2") = 0 := by
  refine ⟨?_, by decide, by decide⟩
  intro hit qs assignments w aid q hq h
  cases qs with
  | nil => cases hq
  | cons q0 rest =>
    show countKey ((rest.map (fun x => helper hit x assignments)).foldl mergeTables
      (helper hit q0 assignments)) (hit, w, aid) = 0
    rw [countKey_foldl_merge, List.map_map]
    rcases List.mem_cons.mp hq with rfl | hmem
    · rw [countKey_helper_zero hit q assignments w aid h]
      exact Nat.zero_mul _
    · have h0 : countKey (helper hit q assignments) (hit, w, aid) = 0 :=
        countKey_helper_zero hit q assignments w aid h
      have hz : (0 : ℕ) ∈ rest.map
          ((fun t => countKey t (hit, w, aid)) ∘ fun x => helper hit x assignments) :=
        List.mem_map.mpr ⟨q, hmem, h0⟩
      rw [List.prod_eq_zero hz]
      exact Nat.mul_zero _

/-- Witness for C5 at the scenario input: R2 lacks an answer to Q2, so the
generic inner-join statement yields zero rows for R2. -/
theorem C5_inner_join_drop_witness :
    countKey (get_mturk_results "T1" ["Q1", "Q2"] [asgnR1, asgnR2])
      ("T1", "R2", "A2") = 0 :=
  C5_inner_join_drop.1 "T1" ["Q1", "Q2"] [asgnR1, asgnR2] "R2" "A2" "Q2"
    (by decide) (by decide)

/-! ## Claim C6 -/

/-- The budget accumulator `budget += amount` once per dictionary entry
adds the entry count times the amount. -/
theorem foldl_add_const (amount : ℚ) :
    ∀ (l : List (String × Option ARow)) (b : ℚ),
      l.foldl (fun acc _ => acc + amount) b = b + l.length * amount := by
  intro l
  induction l with
  | nil =>
    intro b
    simp
  | cons x l ih =>
    intro b
    rw [List.foldl_cons, ih]
    simp only [List.length_cons]
    push_cast
    ring

/-- The dictionary entries iterated by `award_bonus` are in bijection with
the qualifying respondent-task pairs. -/
theorem entries_length_eq (filtered : List ARow) (hits workerList : List String) :
    ((hits.map (hitEntries filtered workerList)).flatten).length
      = (qualifyingPairs filtered hits workerList).length := by
  rw [List.length_flatten, List.map_map]
  unfold qualifyingPairs
  rw [List.length_flatMap]
  congr 1
  refine List.map_congr_left ?_
  intro hit _
  simp [hitEntries, Function.comp]

/-- Claim C6, confirmed: a debug (dry-run) `award_bonus` issues zero
`grant_bonus` calls and reports a budget of (number of qualifying
respondent-task pairs) x amount x 1.2; in particular three qualifying
respondents at one dollar report 3.6 dollars and no payments. -/
theorem C6_dry_run_budget (filtered : List ARow) (hits workerList : List String)
    (amount : ℚ) :
    (award_bonus filtered hits workerList amount true).payments = []
      ∧ (award_bonus filtered hits workerList amount true).budgetReport
          = some (((qualifyingPairs filtered hits workerList).length : ℚ)
              * amount * 1.2)
      ∧ (award_bonus bonus3 ["T1"] ["W1", "W2", "W3"] 1 true).payments = []
      ∧ (award_bonus bonus3 ["T1"] ["W1", "W2", "W3"] 1 true).budgetReport
          = some 3.6 := by
  have hgen : ∀ (f : List ARow) (hs wl : List String) (am : ℚ),
      (award_bonus f hs wl am true).budgetReport
        = some (((qualifyingPairs f hs wl).length : ℚ) * am * 1.2) := by
    intro f hs wl am
    show some ((((hs.map (hitEntries f wl)).flatten).foldl
        (fun b _ => b + am) 0) * 1.2) = _
    rw [foldl_add_const, entries_length_eq, zero_add]
  refine ⟨rfl, hgen filtered hits workerList amount, rfl, ?_⟩
  rw [hgen bonus3 ["T1"] ["W1", "W2", "W3"] 1]
  rw [show (qualifyingPairs bonus3 ["T1"] ["W1", "W2", "W3"]).length = 3 from by decide]
  norm_num

/-! ## Claim C8 -/

/-- Claim C8, confirmed: over a respondent list of size N with K failing
notifications, `send_reminder_emails` returns exactly N result entries, of
which K are recorded failures and N - K successes; and the batch
distributes over list concatenation (a failing prefix never aborts the
rest), with exactly one attempt per list entry. -/
theorem C8_batch_results (notify : String → String → String → Option String)
    (users : List String) (subj msg : String) :
    (send_reminder_emails notify users subj msg).length = users.length
      ∧ countFailed (send_reminder_emails notify users subj msg)
          = users.countP (fun u => (notify u subj (msg ++ u)).isNone)
      ∧ countSent (send_reminder_emails notify users subj msg)
          = users.length
              - users.countP (fun u => (notify u subj (msg ++ u)).isNone)
      ∧ ∀ us1 us2 : List String,
          send_reminder_emails notify (us1 ++ us2) subj msg
            = send_reminder_emails notify us1 subj msg
                ++ send_reminder_emails notify us2 subj msg := by
  have hfail : countFailed (send_reminder_emails notify users subj msg)
      = users.countP (fun u => (notify u subj (msg ++ u)).isNone) := by
    unfold countFailed send_reminder_emails
    rw [List.countP_map]
    refine List.countP_congr ?_
    intro u _
    cases hn : notify u subj (msg ++ u) <;> simp [hn]
  have hnotsum : ∀ {α : Type} (p : α → Bool) (l : List α),
      l.countP (fun a => !p a) + l.countP p = l.length := by
    intro α p l
    induction l with
    | nil => rfl
    | cons a l ih =>
      cases ha : p a <;> simp [List.countP_cons, ha] <;> omega
  refine ⟨List.length_map _ _, hfail, ?_, ?_⟩
  · have hsent : countSent (send_reminder_emails notify users subj msg)
        = users.countP (fun u => !(notify u subj (msg ++ u)).isNone) := by
      unfold countSent send_reminder_emails
      rw [List.countP_map]
      refine List.countP_congr ?_
      intro u _
      cases hn : notify u subj (msg ++ u) <;> simp [hn]
    have hsum := hnotsum (fun u => (notify u subj (msg ++ u)).isNone) users
    omega
  · intro us1 us2
    unfold send_reminder_emails
    exact List.map_append _ us1 us2

/-! ## Claim C10 -/

/-- Claim C10, confirmed: every public operation that runs the filtering
pipeline fails with `AttributeError` on a freshly constructed `Survey`,
because `self.conditions` / `self.cond_mapping` (and downstream
`self.filteredUsers`) are only created by `add_conditions`; the failure is
an unset attribute, not an empty-condition-list treatment — indeed after
registering an EMPTY condition list the same operation succeeds and
returns the full unfiltered user list. -/
theorem C10_fresh_survey_attribute_error
    (t : LTable) (completeList : List String)
    (sheetRows : List (String × List (String × String)))
    (notify : String → String → String → Option String) (subj msg : String)
    (hits : List String) (amount : ℚ) (debug : Bool)
    (customList : Option (List String)) :
    return_all_users_op t freshSurvey = .error .attributeError
      ∧ return_filtered_users_op t freshSurvey = .error .attributeError
      ∧ send_first_mailer_op notify subj msg freshSurvey = .error .attributeError
      ∧ award_bonus_op t completeList hits amount debug customList freshSurvey
          = .error .attributeError
      ∧ merge_op t sheetRows freshSurvey = .error .attributeError
      ∧ return_completed_op t completeList freshSurvey = .error .attributeError
      ∧ return_remaining_op t completeList freshSurvey = .error .attributeError
      ∧ (add_conditions_op [] freshSurvey >>= return_all_users_op t)
          = .ok (t.map (fun lr => lr.2.workerId)) :=
  ⟨rfl, rfl, rfl, rfl, rfl, rfl, rfl, rfl⟩

end PyMturkGspread
